import Mathlib

/-!
Verification of the RAG pipeline builders in `src/RAG/models/generation.py`
(repository `europarlai/europarl_ai`).

The Python module composes LangChain pipelines.  We shallow-embed it:

* a retriever is a function `String → String` (question → retrieved context),
* a language model is a function `String → String` (prompt → raw output),
* a database collaborator is a structure with `build_context`,
  `get_documents_for_each_party` and `source_type`,
* the two builders return `Except String _` (the `ValueError` raised for an
  invalid output-parser selection becomes `Except.error`),
* invoking a built pipeline is a pure function of the chain configuration and
  the question.

External collaborators (the `ChatOpenAI` constructor and the format
instructions produced by `JsonOutputParser.get_format_instructions`) are
parameters of the embedding, collected in the `Ext` structure.  The JSON
parsing performed by `JsonOutputParser` is modelled by an executable
flat-object JSON parser defined below.
-/

namespace Generation

/-! ### Characters and low-level string scanning -/

def lbraceChar : Char := Char.ofNat 123

def rbraceChar : Char := Char.ofNat 125

def quoteChar : Char := Char.ofNat 34

def isWsChar (c : Char) : Bool :=
  c == ' ' || c == '\n' || c == '\t' || c == '\r'

/-- Drop leading whitespace characters. -/
def skipWs : List Char → List Char
  | [] => []
  | c :: cs => if isWsChar c then skipWs cs else c :: cs

/-- Split a character list at the first occurrence of `stop`; the returned
pair is (characters before `stop`, characters after `stop`). -/
def takeUntil (stop : Char) : List Char → Option (List Char × List Char)
  | [] => none
  | c :: cs =>
    if c = stop then some ([], cs)
    else
      match takeUntil stop cs with
      | some (pre, post) => some (c :: pre, post)
      | none => none

/-- Modelled from the spec: the JSON parsing done by the external
`JsonOutputParser` (not part of this repository).  `parsePairs fuel cs`
reads a non-empty comma-separated sequence of `"key": "value"` pairs from
`cs` and stops after the closing brace, returning the parsed pairs and the
remaining characters.  String literals contain no escape sequences. -/
def parsePairs : Nat → List Char → Option (List (String × String) × List Char)
  | 0, _ => none
  | fuel + 1, cs =>
    match skipWs cs with
    | [] => none
    | c0 :: cs1 =>
      if c0 = quoteChar then
        match takeUntil quoteChar cs1 with
        | none => none
        | some (kcs, cs2) =>
          match skipWs cs2 with
          | [] => none
          | c3 :: cs3 =>
            if c3 = ':' then
              match skipWs cs3 with
              | [] => none
              | c4 :: cs4 =>
                if c4 = quoteChar then
                  match takeUntil quoteChar cs4 with
                  | none => none
                  | some (vcs, cs5) =>
                    match skipWs cs5 with
                    | [] => none
                    | c6 :: cs6 =>
                      if c6 = ',' then
                        match parsePairs fuel cs6 with
                        | some (rest, post) =>
                            some ((String.mk kcs, String.mk vcs) :: rest, post)
                        | none => none
                      else if c6 = rbraceChar then
                        some ([(String.mk kcs, String.mk vcs)], cs6)
                      else none
                else none
            else none
      else none

/-- Modelled from the spec: the external `JsonOutputParser` reading a flat
JSON object with string keys and string values.  Returns the key/value pairs
in textual order, or `none` when the input is not such an object. -/
def parseFlatJson (s : String) : Option (List (String × String)) :=
  match skipWs s.data with
  | [] => none
  | c :: cs =>
    if c = lbraceChar then
      match skipWs cs with
      | [] => none
      | c2 :: cs2 =>
        if c2 = rbraceChar then
          if skipWs cs2 = [] then some [] else none
        else
          match parsePairs (s.length + 1) cs with
          | some (pairs, rest) => if skipWs rest = [] then some pairs else none
          | none => none
    else none

/-! ### Python dictionary semantics

A Python `dict` built from a sequence of key/value bindings keeps each key at
its first-insertion position and keeps the last value bound to it. -/

def dictInsert {α : Type} (d : List (String × α)) (key : String) (v : α) :
    List (String × α) :=
  if (d.map Prod.fst).contains key then
    d.map (fun p => if p.1 = key then (key, v) else p)
  else d ++ [(key, v)]

def pyDict {α : Type} (l : List (String × α)) : List (String × α) :=
  l.foldl (fun d kv => dictInsert d kv.1 kv.2) []

/-! ### The structured output schema (`PartySummaries`) -/

/-- The `PartySummaries` pydantic model: six required text fields, one per
party. -/
structure PartySummaries where
  cdu : String
  spd : String
  gruene : String
  linke : String
  fdp : String
  afd : String
deriving DecidableEq, Repr

/-- The six schema fields in declaration order, as key/value pairs. -/
def psFields (ps : PartySummaries) : List (String × String) :=
  [("cdu", ps.cdu), ("spd", ps.spd), ("gruene", ps.gruene),
   ("linke", ps.linke), ("fdp", ps.fdp), ("afd", ps.afd)]

def renderField (k v : String) : String :=
  "\"" ++ k ++ "\": \"" ++ v ++ "\""

def renderFieldsBody : List (String × String) → String
  | [] => ""
  | [(k, v)] => renderField k v
  | (k, v) :: rest => renderField k v ++ ", " ++ renderFieldsBody rest

/-- Render a flat string-to-string object as JSON text. -/
def renderFlatJson (l : List (String × String)) : String :=
  "\x7b" ++ renderFieldsBody l ++ "\x7d"

/-- A valid model payload for the six-field schema: the JSON rendering of the
six fields. -/
def renderPartySummaries (ps : PartySummaries) : String :=
  renderFlatJson (psFields ps)

def noQuote (s : String) : Bool := !(s.data.contains quoteChar)

def pairsQuoteFree (l : List (String × String)) : Bool :=
  l.all (fun p => noQuote p.1 && noQuote p.2)

def quoteFreePS (ps : PartySummaries) : Bool :=
  pairsQuoteFree (psFields ps)

/-! ### Prompt template formatting

Python's `str.format` substitutes every `{name}` placeholder of the template
simultaneously; substituted values are never re-scanned.  `fmtAux` scans the
template once and emits each variable's value verbatim. -/

def fmtAux : Nat → List Char → List (String × String) → List Char
  | 0, cs, _ => cs
  | _ + 1, [], _ => []
  | fuel + 1, c :: cs, vars =>
    if c = lbraceChar then
      match takeUntil rbraceChar cs with
      | some (nm, rest) =>
        match vars.lookup (String.mk nm) with
        | some v => v.data ++ fmtAux fuel rest vars
        | none => c :: (nm ++ rbraceChar :: fmtAux fuel rest vars)
      | none => c :: fmtAux fuel cs vars
    else c :: fmtAux fuel cs vars

/-- Fill a template's `{name}` placeholders with the given variable values
(simultaneous substitution, as in Python's `str.format`). -/
def formatTemplate (tmpl : String) (vars : List (String × String)) : String :=
  String.mk (fmtAux tmpl.length tmpl.data vars)

/-! ### External collaborators -/

/-- The behavior of external collaborators that this repository only calls:
the `ChatOpenAI` model constructor (model name, max_tokens, temperature,
prompt → raw output) and the fixed format-instruction text produced by
`JsonOutputParser.get_format_instructions()`. -/
structure Ext where
  chatOpenAI : String → Nat → Int → String → String
  format_instructions : String

/-- The default model constructed by both builders when `llm` is `None`:
`ChatOpenAI(model_name="gpt-3.5-turbo", max_tokens=2000, temperature=temperature)`. -/
def defaultLLM (ext : Ext) (temperature : Int) : String → String :=
  ext.chatOpenAI "gpt-3.5-turbo" 2000 temperature

/-! ### Output parser selection -/

/-- The parser selected at build time: `JsonOutputParser(pydantic_object=PartySummaries)`
(carrying its format instructions) or `StrOutputParser()`. -/
inductive ParserSel where
  | jsonSel (fi : String)
  | strSel
deriving DecidableEq

/-- A parsed answer: the dictionary produced by the JSON parser, or the raw
model text. -/
inductive Answer where
  | jsonAnswer (fields : List (String × String))
  | strAnswer (text : String)
deriving DecidableEq, Repr

/-- Apply the selected output parser to the raw model output.  The JSON
parser raises (`Except.error`) when the output is not valid JSON; duplicate
keys follow Python dictionary semantics. -/
def applyParser : ParserSel → String → Except String Answer
  | .jsonSel _, raw =>
    match parseFlatJson raw with
    | some d => .ok (.jsonAnswer (pyDict d))
    | none => .error "OutputParserException"
  | .strSel, raw => .ok (.strAnswer raw)

/-- The prompt text sent to the model: the base template, extended in JSON
mode by `"\n\n{format_instructions}\n"`, with all placeholders filled. -/
def chainPrompt (sel : ParserSel) (tmpl q ctx : String) : String :=
  match sel with
  | .jsonSel fi =>
      formatTemplate (tmpl ++ "\n\n{format_instructions}\n")
        [("question", q), ("context", ctx), ("format_instructions", fi)]
  | .strSel => formatTemplate tmpl [("question", q), ("context", ctx)]

/-! ### The single-retriever chain (`generate_chain`) -/

/-- The fixed German prompt template of `generate_chain`. -/
def chain1_template : String :=
  "\n    Du hilfst dabei, die politischen Positionen der Parteien CDU/CSU, SPD, Bündnis 90/Die Grünen, Die Linke, FDP und AfD zur Europawahl 2024 zusammenzufassen.\n    Beantworte die folgende Frage nur auf dem zur Verfügung gestellten Kontext.\n    Falls sich die Frage auf Basis des Kontexts nicht beantworten lässt, gib eine kurze Begründung an.\n    Beantworte die Frage auf Deutsch.\n\n    FRAGE: {question}\n\n    KONTEXT:\n    {context}\n    "

/-- The error message of the `ValueError` raised for an invalid
output-parser selection. -/
def invalidParserMsg : String :=
  "output_parser must be \x27json\x27 or \x27str\x27"

/-- The pipeline built by `generate_chain`: its configuration captured at
build time. -/
structure GenChain where
  retriever : String → String
  llm : String → String
  sel : ParserSel
  verbose : Bool

/-- The result of invoking a `generate_chain` pipeline: either the parsed
answer alone (`verbose=False`) or the `question`/`context`/`answer` mapping
(`verbose=True`). -/
inductive GenResult where
  | plain (a : Answer)
  | withSource (question context : String) (answer : Answer)
deriving Repr

/-- `generate_chain(retriever, llm, output_parser, verbose, temperature)`.
When `llm` is `None` the default `ChatOpenAI` model is constructed; the
parser mode string selects the parser and decorates the prompt, and any
other value raises `ValueError`. -/
def generate_chain (ext : Ext) (retriever : String → String)
    (llm : Option (String → String)) (outputParser : String)
    (verbose : Bool) (temperature : Int) : Except String GenChain :=
  let l := match llm with
    | none => defaultLLM ext temperature
    | some l => l
  if outputParser = "json" then
    .ok ⟨retriever, l, .jsonSel ext.format_instructions, verbose⟩
  else if outputParser = "str" then
    .ok ⟨retriever, l, .strSel, verbose⟩
  else
    .error invalidParserMsg

/-- Invoke a `generate_chain` pipeline with a question.  Non-verbose:
`{"context": retriever, "question": RunnablePassthrough()} | prompt | llm |
output_parser`.  Verbose: the `question`/`context` mapping is extended with
`answer`, computed by `prompt | llm | StrOutputParser()` — note the verbose
branch always ends in `StrOutputParser()`, regardless of the selected
parser. -/
def invokeGen (c : GenChain) (q : String) : Except String GenResult :=
  let ctx := c.retriever q
  let raw := c.llm (chainPrompt c.sel chain1_template q ctx)
  if c.verbose then
    .ok (.withSource q ctx (.strAnswer raw))
  else
    (applyParser c.sel raw).map .plain

/-- Invocation exposing the chain object after the call: the source composes
stateless runnables and mutates nothing, so the chain is returned
unchanged. -/
def invokeGenS (c : GenChain) (q : String) :
    Except String GenResult × GenChain :=
  (invokeGen c q, c)

/-! ### The balanced-retrieval chain (`generate_chain_with_balanced_retrieval`) -/

/-- A database collaborator: `build_context(query, k)`,
`get_documents_for_each_party(query, k)` (a mapping party → documents) and
the `source_type` grouping key. -/
structure Database where
  build_context : String → Nat → String
  get_documents_for_each_party : String → Nat → List (String × List String)
  source_type : String

/-- The fixed German prompt template of the balanced-retrieval chain,
parameterized by the target `language` (an f-string in the source, so
`language` is substituted at build time while `{context}` and `{question}`
remain placeholders). -/
def balanced_template (language : String) : String :=
  "   \n    Beantworte die Frage und erstelle pro Partei eine Zusammenfassung der politischen Positionen von CDU/CSU, SPD, Bündnis 90/Die Grünen, Die Linke, FDP und AfD zur Europawahl 2024 auf Basis der Debatten im EU-Parlament und der EU-Wahlprogramme. \n    Die Antwort soll strikt die Informationen aus den genannten Quellen widerspiegeln. \n    Mach deutlich, die Antwort entspricht den Position der Parteien.\n    Gebe die Antwort auf " ++ language ++ ".\n\n    KONTEXT:\n    {context}\n\n        Sollten die oben genannten Quellen keine klare Antwort auf die unten genannte Frage zulassen, gib bitte folgende Rückmeldung: \"Es wurde keine passende Antwort in den verfügbaren Daten gefunden.\"\n    Andernfalls gib wie oben beschrieben eine Zusammenfassung der Positionen der Parteien wieder, wodurch die nun folgende Frage beantwortet wird:\n\n    FRAGE: \n    {question}\n    "

/-- The pipeline built by `generate_chain_with_balanced_retrieval`. -/
structure BalancedChain where
  dbs : List Database
  llm : String → String
  sel : ParserSel
  k : Nat
  return_context : Bool
  language : String

/-- The result of invoking a balanced-retrieval pipeline: the
`question`/`answer` mapping (`return_context=False`) or the
`question`/`context`/`docs`/`answer` mapping (`return_context=True`). -/
inductive BalResult where
  | basic (question : String) (answer : Answer)
  | withContext (question context : String)
      (docs : List (String × List (String × List String))) (answer : Answer)
deriving Repr

/-- `"\n\n".join([db.build_context(query=question, k=k) for db in dbs])`. -/
def joinedContext (dbs : List Database) (q : String) (k : Nat) : String :=
  String.intercalate "\n\n" (dbs.map (fun db => db.build_context q k))

/-- `{db.source_type: db.get_documents_for_each_party(query=question, k=k)
for db in dbs}` — a Python dict comprehension, so later databases with the
same `source_type` overwrite earlier ones. -/
def collectDocs (dbs : List Database) (q : String) (k : Nat) :
    List (String × List (String × List String)) :=
  pyDict (dbs.map (fun db => (db.source_type, db.get_documents_for_each_party q k)))

/-- `generate_chain_with_balanced_retrieval(dbs, llm, output_parser,
temperature, k, return_context, language)`. -/
def generate_chain_with_balanced_retrieval (ext : Ext) (dbs : List Database)
    (llm : Option (String → String)) (outputParser : String)
    (temperature : Int) (k : Nat) (return_context : Bool)
    (language : String) : Except String BalancedChain :=
  let l := match llm with
    | none => defaultLLM ext temperature
    | some l => l
  if outputParser = "json" then
    .ok ⟨dbs, l, .jsonSel ext.format_instructions, k, return_context, language⟩
  else if outputParser = "str" then
    .ok ⟨dbs, l, .strSel, k, return_context, language⟩
  else
    .error invalidParserMsg

/-- Invoke a balanced-retrieval pipeline with a question: every database is
queried with the same question and `k`, the contexts are joined with a
blank-line separator, the prompt is filled and the model output parsed.
With `return_context=True` the per-source document breakdown is collected as
well. -/
def invokeBalanced (c : BalancedChain) (q : String) : Except String BalResult :=
  let ctx := joinedContext c.dbs q c.k
  let raw := c.llm (chainPrompt c.sel (balanced_template c.language) q ctx)
  if c.return_context then
    (applyParser c.sel raw).map (fun a => .withContext q ctx (collectDocs c.dbs q c.k) a)
  else
    (applyParser c.sel raw).map (fun a => .basic q a)

/-- Invocation exposing the chain object after the call; nothing is
mutated. -/
def invokeBalancedS (c : BalancedChain) (q : String) :
    Except String BalResult × BalancedChain :=
  (invokeBalanced c q, c)

/-! ### Concrete stub collaborators used by witnesses and counterexamples -/

def ext0 : Ext :=
  ⟨fun _ _ _ _ => "", "FORMAT_INSTRUCTIONS"⟩

def retr0 : String → String := fun _ => "CTX"

def llmEcho : String → String := fun p => p

def ps0 : PartySummaries :=
  ⟨"a1", "a2", "a3", "a4", "a5", "a6"⟩

def dbA : Database := ⟨fun _ _ => "A", fun _ _ => [], "debates"⟩

def dbB : Database := ⟨fun _ _ => "B", fun _ _ => [], "manifestos"⟩

def dbC : Database := ⟨fun _ _ => "C", fun _ _ => [], "speeches"⟩

def dbDup1 : Database :=
  ⟨fun _ _ => "D1", fun _ _ => [("spd", ["x"])], "debates"⟩

def dbDup2 : Database :=
  ⟨fun _ _ => "D2", fun _ _ => [("spd", ["y"])], "debates"⟩

/-! ### Helper lemmas: character facts and scanning -/

@[simp]
theorem isWsChar_quote : isWsChar quoteChar = false := by decide

@[simp]
theorem isWsChar_colon : isWsChar ':' = false := by decide

@[simp]
theorem isWsChar_comma : isWsChar ',' = false := by decide

@[simp]
theorem isWsChar_rbrace : isWsChar rbraceChar = false := by decide

@[simp]
theorem isWsChar_lbrace : isWsChar lbraceChar = false := by decide

@[simp]
theorem isWsChar_space : isWsChar ' ' = true := by decide

@[simp]
theorem mk_data (s : String) : String.mk s.data = s := rfl

theorem skipWs_cons_of_not_ws (c : Char) (cs : List Char)
    (h : isWsChar c = false) : skipWs (c :: cs) = c :: cs := by
  simp [skipWs, h]

theorem takeUntil_append (stop : Char) :
    ∀ (pre post : List Char), stop ∉ pre →
      takeUntil stop (pre ++ stop :: post) = some (pre, post) := by
  intro pre
  induction pre with
  | nil => intro post _; simp [takeUntil]
  | cons c cs ih =>
    intro post h
    have hc : ¬ c = stop := fun hh => h (hh ▸ List.mem_cons_self c cs)
    simp only [List.cons_append, takeUntil, if_neg hc, List.append_eq,
      ih post (fun hm => h (List.mem_cons_of_mem c hm))]

theorem parsePairs_skip_space (fuel : Nat) (cs : List Char) :
    parsePairs fuel (' ' :: cs) = parsePairs fuel cs := by
  cases fuel with
  | zero => rfl
  | succ f =>
    have h : skipWs (' ' :: cs) = skipWs cs := by simp [skipWs]
    simp only [parsePairs, h]

theorem not_mem_of_noQuote (s : String) (h : noQuote s = true) :
    quoteChar ∉ s.data := by
  simpa [noQuote] using h

theorem skipWs_cons_of_ws (c : Char) (cs : List Char)
    (h : isWsChar c = true) : skipWs (c :: cs) = skipWs cs := by
  simp [skipWs, h]

@[simp]
theorem data_quoteStr : ("\"" : String).data = [quoteChar] := by decide

@[simp]
theorem data_keyValSep : ("\": \"" : String).data = [quoteChar, ':', ' ', quoteChar] := by decide

@[simp]
theorem data_pairSep : (", " : String).data = [',', ' '] := by decide

@[simp]
theorem data_lbraceStr : ("\x7b" : String).data = [lbraceChar] := by decide

@[simp]
theorem data_rbraceStr : ("\x7d" : String).data = [rbraceChar] := by decide

theorem rbrace_ne_comma : ¬ rbraceChar = ',' := by decide

theorem renderField_data (k v : String) (rest : List Char) :
    (renderField k v).data ++ rest =
      quoteChar :: (k.data ++ quoteChar :: ':' :: ' ' :: quoteChar ::
        (v.data ++ quoteChar :: rest)) := by
  simp only [renderField, String.data_append, data_quoteStr, data_keyValSep,
    List.append_assoc, List.cons_append, List.nil_append]
  rfl

theorem parsePairs_render :
    ∀ (l : List (String × String)) (fuel : Nat) (tail : List Char),
      l ≠ [] → pairsQuoteFree l = true → l.length ≤ fuel →
      parsePairs fuel ((renderFieldsBody l).data ++ rbraceChar :: tail) =
        some (l, tail) := by
  intro l
  induction l with
  | nil => intro fuel tail hne _ _; exact absurd rfl hne
  | cons kv rest ih =>
    obtain ⟨k, v⟩ := kv
    intro fuel tail _ hqf hlen
    have hk : noQuote k = true := by
      have := hqf; simp [pairsQuoteFree] at this; exact this.1.1
    have hv : noQuote v = true := by
      have := hqf; simp [pairsQuoteFree] at this; exact this.1.2
    have hrest : pairsQuoteFree rest = true := by
      have := hqf; simp [pairsQuoteFree] at this
      simp [pairsQuoteFree]
      exact this.2
    have hkm : quoteChar ∉ k.data := not_mem_of_noQuote k hk
    have hvm : quoteChar ∉ v.data := not_mem_of_noQuote v hv
    cases fuel with
    | zero => simp at hlen
    | succ f =>
      cases rest with
      | nil =>
        rw [show renderFieldsBody [(k, v)] = renderField k v from rfl,
          renderField_data]
        simp only [parsePairs, skipWs_cons_of_not_ws _ _ isWsChar_quote,
          skipWs_cons_of_not_ws _ _ isWsChar_colon,
          skipWs_cons_of_ws _ _ isWsChar_space,
          skipWs_cons_of_not_ws _ _ isWsChar_rbrace,
          takeUntil_append _ _ _ hkm, takeUntil_append _ _ _ hvm,
          if_pos rfl, if_neg rbrace_ne_comma, mk_data, ite_true]
      | cons p ps =>
        rw [show renderFieldsBody ((k, v) :: p :: ps) =
          renderField k v ++ ", " ++ renderFieldsBody (p :: ps) from rfl]
        have hih : parsePairs f ((renderFieldsBody (p :: ps)).data ++ rbraceChar :: tail) =
            some (p :: ps, tail) := by
          refine ih f tail (by simp) hrest ?_
          simp at hlen ⊢
          omega
        simp only [String.data_append, List.append_assoc, data_pairSep,
          List.cons_append, List.nil_append]
        rw [renderField_data]
        simp only [parsePairs, skipWs_cons_of_not_ws _ _ isWsChar_quote,
          skipWs_cons_of_not_ws _ _ isWsChar_colon,
          skipWs_cons_of_ws _ _ isWsChar_space,
          skipWs_cons_of_not_ws _ _ isWsChar_comma,
          takeUntil_append _ _ _ hkm, takeUntil_append _ _ _ hvm,
          if_pos rfl, parsePairs_skip_space, hih, mk_data, ite_true]

theorem quote_ne_rbrace : ¬ quoteChar = rbraceChar := by decide

theorem renderFieldsBody_len :
    ∀ l : List (String × String), l.length ≤ (renderFieldsBody l).data.length := by
  intro l
  induction l with
  | nil => simp [renderFieldsBody]
  | cons kv rest ih =>
    obtain ⟨k, v⟩ := kv
    cases rest with
    | nil =>
      simp [renderFieldsBody, renderField, String.data_append]
    | cons p ps =>
      rw [show renderFieldsBody ((k, v) :: p :: ps) =
        renderField k v ++ ", " ++ renderFieldsBody (p :: ps) from rfl]
      simp only [String.data_append, List.length_append, List.length_cons] at ih ⊢
      simp [renderField, String.data_append]
      have hb : (renderFieldsBody (p :: ps)).length = (renderFieldsBody (p :: ps)).data.length := rfl
      omega

theorem parse_render (l : List (String × String)) (hne : l ≠ [])
    (hqf : pairsQuoteFree l = true) :
    parseFlatJson (renderFlatJson l) = some l := by
  have hlen : l.length ≤ (renderFlatJson l).length + 1 := by
    have h := renderFieldsBody_len l
    simp only [renderFlatJson, String.length, String.data_append,
      List.length_append] at h ⊢
    omega
  have hstep := parsePairs_render l ((renderFlatJson l).length + 1) [] hne hqf hlen
  cases l with
  | nil => exact absurd rfl hne
  | cons kv rest =>
    obtain ⟨k, v⟩ := kv
    have hhead : ∃ X, (renderFieldsBody ((k, v) :: rest)).data = quoteChar :: X := by
      cases rest with
      | nil =>
        have h0 := renderField_data k v []
        rw [List.append_nil] at h0
        exact ⟨_, h0⟩
      | cons p ps =>
        have h1 : (renderFieldsBody ((k, v) :: p :: ps)).data =
            (renderField k v).data ++ ([',', ' '] ++ (renderFieldsBody (p :: ps)).data) := by
          rw [show renderFieldsBody ((k, v) :: p :: ps) =
            renderField k v ++ ", " ++ renderFieldsBody (p :: ps) from rfl]
          simp [String.data_append, List.append_assoc]
        have h0 := renderField_data k v ([',', ' '] ++ (renderFieldsBody (p :: ps)).data)
        exact ⟨_, h1.trans h0⟩
    obtain ⟨X, hX⟩ := hhead
    have hsdata : (renderFlatJson ((k, v) :: rest)).data =
        lbraceChar :: (quoteChar :: (X ++ [rbraceChar])) := by
      simp only [renderFlatJson, String.data_append, data_lbraceStr,
        data_rbraceStr, List.append_assoc, hX, List.cons_append,
        List.nil_append, List.singleton_append]
      rfl
    rw [hX, List.cons_append] at hstep
    unfold parseFlatJson
    rw [hsdata, skipWs_cons_of_not_ws _ _ isWsChar_lbrace]
    simp only [if_pos rfl, skipWs_cons_of_not_ws _ _ isWsChar_quote,
      if_neg quote_ne_rbrace, hstep]
    simp [skipWs]

theorem parse_render_ps (ps : PartySummaries) (h : quoteFreePS ps = true) :
    parseFlatJson (renderPartySummaries ps) = some (psFields ps) :=
  parse_render (psFields ps) (by simp [psFields]) h

theorem pyDict_psFields (ps : PartySummaries) :
    pyDict (psFields ps) = psFields ps := rfl

/-! ### Helper lemmas: Python dictionary semantics -/

theorem mem_keys_dictInsert {α : Type} (d : List (String × α)) (k : String)
    (v : α) (s : String) :
    s ∈ (dictInsert d k v).map Prod.fst ↔ s ∈ d.map Prod.fst ∨ s = k := by
  unfold dictInsert
  by_cases h : (d.map Prod.fst).contains k = true
  · have hk : k ∈ d.map Prod.fst := by simpa using h
    rw [if_pos h, List.map_map]
    have hmapeq :
        d.map (Prod.fst ∘ fun p => if p.1 = k then (k, v) else p) =
          d.map Prod.fst := by
      apply List.map_congr_left
      intro p _
      by_cases hp : p.1 = k
      · simp [hp]
      · simp [hp]
    rw [hmapeq]
    constructor
    · exact Or.inl
    · rintro (hh | rfl)
      · exact hh
      · exact hk
  · rw [if_neg h]
    simp [List.map_append]

theorem mem_keys_foldl {α : Type} (l : List (String × α)) :
    ∀ (acc : List (String × α)) (s : String),
      (s ∈ (l.foldl (fun d kv => dictInsert d kv.1 kv.2) acc).map Prod.fst ↔
        s ∈ acc.map Prod.fst ∨ s ∈ l.map Prod.fst) := by
  induction l with
  | nil => intro acc s; simp
  | cons kv rest ih =>
    intro acc s
    rw [List.foldl_cons, ih, mem_keys_dictInsert]
    simp [List.mem_cons]
    tauto

theorem mem_keys_pyDict {α : Type} (l : List (String × α)) (s : String) :
    s ∈ (pyDict l).map Prod.fst ↔ s ∈ l.map Prod.fst := by
  have h := mem_keys_foldl l [] s
  simpa [pyDict] using h

theorem foldl_dictInsert_nodup {α : Type} :
    ∀ (l acc : List (String × α)),
      (l.map Prod.fst).Nodup →
      (∀ s ∈ l.map Prod.fst, s ∉ acc.map Prod.fst) →
      l.foldl (fun d kv => dictInsert d kv.1 kv.2) acc = acc ++ l := by
  intro l
  induction l with
  | nil => intro acc _ _; simp
  | cons kv rest ih =>
    intro acc hnd hdisj
    rw [List.foldl_cons]
    have hnotin : kv.1 ∉ acc.map Prod.fst := hdisj kv.1 (by simp)
    have hins : dictInsert acc kv.1 kv.2 = acc ++ [kv] := by
      unfold dictInsert
      rw [if_neg (fun hc => hnotin (by simpa using hc))]
    rw [List.map_cons] at hnd
    have hnds := List.nodup_cons.mp hnd
    have hdisj' : ∀ s ∈ rest.map Prod.fst, s ∉ (acc ++ [kv]).map Prod.fst := by
      intro s hs
      simp only [List.map_append, List.mem_append, List.map_cons,
        List.map_nil, List.mem_singleton]
      rintro (hin | heq)
      · exact hdisj s (by simp [hs]) hin
      · exact hnds.1 (heq ▸ hs)
    rw [hins, ih (acc ++ [kv]) hnds.2 hdisj']
    simp

theorem pyDict_of_nodup {α : Type} (l : List (String × α))
    (h : (l.map Prod.fst).Nodup) : pyDict l = l := by
  have h2 := foldl_dictInsert_nodup l [] h (by simp)
  simpa [pyDict] using h2

theorem lookup_collect {α : Type} (g : Database → α) :
    ∀ (dbs : List Database), (dbs.map Database.source_type).Nodup →
      ∀ db ∈ dbs,
        (dbs.map (fun d => (d.source_type, g d))).lookup db.source_type =
          some (g db) := by
  intro dbs
  induction dbs with
  | nil => intro _ db h; simp at h
  | cons d ds ih =>
    intro hnd db hmem
    rw [List.map_cons] at hnd
    have hnds := List.nodup_cons.mp hnd
    rcases List.mem_cons.mp hmem with rfl | hmem'
    · simp [List.lookup]
    · have h2 : db.source_type ∈ ds.map Database.source_type :=
        List.mem_map_of_mem Database.source_type hmem'
      have hne : db.source_type ≠ d.source_type := fun he => hnds.1 (he ▸ h2)
      have hbeq : (db.source_type == d.source_type) = false :=
        beq_eq_false_iff_ne.mpr hne
      simp only [List.map_cons, List.lookup, hbeq]
      exact ih hnds.2 db hmem'

/-! ### Helper lemmas: builder reductions -/

theorem build_gen_json (ext : Ext) (r : String → String)
    (llm : Option (String → String)) (v : Bool) (t : Int) :
    generate_chain ext r llm "json" v t =
      .ok ⟨r, (match llm with | none => defaultLLM ext t | some l => l),
        .jsonSel ext.format_instructions, v⟩ := rfl

theorem build_gen_str (ext : Ext) (r : String → String)
    (llm : Option (String → String)) (v : Bool) (t : Int) :
    generate_chain ext r llm "str" v t =
      .ok ⟨r, (match llm with | none => defaultLLM ext t | some l => l),
        .strSel, v⟩ := rfl

theorem build_bal_json (ext : Ext) (dbs : List Database)
    (llm : Option (String → String)) (t : Int) (k : Nat) (rc : Bool)
    (lang : String) :
    generate_chain_with_balanced_retrieval ext dbs llm "json" t k rc lang =
      .ok ⟨dbs, (match llm with | none => defaultLLM ext t | some l => l),
        .jsonSel ext.format_instructions, k, rc, lang⟩ := rfl

theorem build_bal_str (ext : Ext) (dbs : List Database)
    (llm : Option (String → String)) (t : Int) (k : Nat) (rc : Bool)
    (lang : String) :
    generate_chain_with_balanced_retrieval ext dbs llm "str" t k rc lang =
      .ok ⟨dbs, (match llm with | none => defaultLLM ext t | some l => l),
        .strSel, k, rc, lang⟩ := rfl

/-! ### Claim theorems -/

/-- C1: for both chain builders, `output_parser = "json"` or `"str"` builds
a pipeline successfully; any other value fails at build time with the
`ValueError` message `output_parser must be 'json' or 'str'`.  The builders
are pure configuration: they never invoke the retriever, the databases or
the model, so the failure precedes any retrieval or model call (the theorem
holds for every retriever/model/database value). -/
theorem c1_parser_mode_validation (ext : Ext) (r : String → String)
    (llm : Option (String → String)) (v : Bool) (t : Int)
    (dbs : List Database) (k : Nat) (rc : Bool) (lang : String) :
    (∃ c, generate_chain ext r llm "json" v t = .ok c) ∧
    (∃ c, generate_chain ext r llm "str" v t = .ok c) ∧
    (∃ b, generate_chain_with_balanced_retrieval ext dbs llm "json" t k rc lang = .ok b) ∧
    (∃ b, generate_chain_with_balanced_retrieval ext dbs llm "str" t k rc lang = .ok b) ∧
    (∀ op : String, op ≠ "json" → op ≠ "str" →
      generate_chain ext r llm op v t = .error invalidParserMsg ∧
      generate_chain_with_balanced_retrieval ext dbs llm op t k rc lang =
        .error invalidParserMsg) := by
  refine ⟨⟨_, rfl⟩, ⟨_, rfl⟩, ⟨_, rfl⟩, ⟨_, rfl⟩, fun op h1 h2 => ⟨?_, ?_⟩⟩
  · simp [generate_chain, h1, h2]
  · simp [generate_chain_with_balanced_retrieval, h1, h2]

/-- C1 witness: the invalid mode `"xml"` is rejected by both builders with
the exact error message. -/
theorem c1_witness :
    generate_chain ext0 retr0 (some llmEcho) "xml" false 0 =
      .error invalidParserMsg ∧
    generate_chain_with_balanced_retrieval ext0 [dbA] (some llmEcho) "xml" 0 5 false "Deutsch" =
      .error invalidParserMsg :=
  (c1_parser_mode_validation ext0 retr0 (some llmEcho) false 0 [dbA] 5 false
    "Deutsch").2.2.2.2 "xml" (by decide) (by decide)

/-- C2: invoking the balanced-retrieval chain calls `build_context(question, k)`
on every database in the list and passes to the prompt the contexts joined
with a blank-line separator in list order; for three databases returning
`"A"`, `"B"`, `"C"` the joined context is `"A\n\nB\n\nC"`. -/
theorem c2_balanced_context_join (ext : Ext) (l : String → String) (t : Int)
    (k : Nat) (lang q : String) (dbs : List Database) (c crc : BalancedChain) :
    generate_chain_with_balanced_retrieval ext dbs (some l) "str" t k false lang = .ok c →
    generate_chain_with_balanced_retrieval ext dbs (some l) "str" t k true lang = .ok crc →
    invokeBalanced c q = .ok (.basic q (.strAnswer (l (chainPrompt .strSel
        (balanced_template lang) q
        (String.intercalate "\n\n" (dbs.map (fun db => db.build_context q k))))))) ∧
    invokeBalanced crc q = .ok (.withContext q
        (String.intercalate "\n\n" (dbs.map (fun db => db.build_context q k)))
        (collectDocs dbs q k)
        (.strAnswer (l (chainPrompt .strSel (balanced_template lang) q
          (String.intercalate "\n\n" (dbs.map (fun db => db.build_context q k))))))) ∧
    joinedContext [dbA, dbB, dbC] q k = "A\n\nB\n\nC" := by
  intro h1 h2
  rw [build_bal_str] at h1 h2
  obtain rfl := Except.ok.inj h1
  obtain rfl := Except.ok.inj h2
  exact ⟨rfl, rfl, rfl⟩

/-- C2 witness: the three stub databases produce the blank-line joined
context in list order, observed through an echo model. -/
theorem c2_witness :
    invokeBalanced ⟨[dbA, dbB, dbC], llmEcho, .strSel, 5, false, "Deutsch"⟩ "Q" =
      .ok (.basic "Q" (.strAnswer (chainPrompt .strSel
        (balanced_template "Deutsch") "Q" "A\n\nB\n\nC"))) := by
  have h := c2_balanced_context_join ext0 llmEcho 0 5 "Deutsch" "Q"
    [dbA, dbB, dbC]
    ⟨[dbA, dbB, dbC], llmEcho, .strSel, 5, false, "Deutsch"⟩
    ⟨[dbA, dbB, dbC], llmEcho, .strSel, 5, true, "Deutsch"⟩ rfl rfl
  exact h.1

/-- C3 counterexample: in `"json"` mode with `verbose=True`, the answer is
the raw model text (the verbose chain composes `StrOutputParser()`), not the
structured object parsed by the selected JSON parser — even when the model
emits a valid six-field payload that the JSON parser accepts. -/
theorem c3_counterexample :
    generate_chain ext0 retr0 (some (fun _ => renderPartySummaries ps0)) "json" true 0 =
      .ok ⟨retr0, fun _ => renderPartySummaries ps0, .jsonSel "FORMAT_INSTRUCTIONS", true⟩ ∧
    invokeGen ⟨retr0, fun _ => renderPartySummaries ps0, .jsonSel "FORMAT_INSTRUCTIONS", true⟩ "Q" =
      .ok (.withSource "Q" "CTX" (.strAnswer (renderPartySummaries ps0))) ∧
    parseFlatJson (renderPartySummaries ps0) = some (psFields ps0) ∧
    Answer.strAnswer (renderPartySummaries ps0) ≠ Answer.jsonAnswer (psFields ps0) := by
  refine ⟨rfl, rfl, parse_render_ps ps0 (by decide), ?_⟩
  simp

/-- C3 (amended): with `verbose=False` the raw model output is parsed with
the selected parser (JSON parser in `"json"` mode, verbatim text in `"str"`
mode); with `verbose=True` the answer field is always the raw model text
(`StrOutputParser()`), regardless of the selected parser mode. -/
theorem c3_amended_parser_application (ext : Ext) (r : String → String)
    (l : String → String) (t : Int) (q : String) (cj cs cjv csv : GenChain) :
    generate_chain ext r (some l) "json" false t = .ok cj →
    generate_chain ext r (some l) "str" false t = .ok cs →
    generate_chain ext r (some l) "json" true t = .ok cjv →
    generate_chain ext r (some l) "str" true t = .ok csv →
    invokeGen cj q = (applyParser (.jsonSel ext.format_instructions)
        (l (chainPrompt (.jsonSel ext.format_instructions) chain1_template q (r q)))).map GenResult.plain ∧
    invokeGen cs q = .ok (.plain (.strAnswer (l (chainPrompt .strSel chain1_template q (r q))))) ∧
    invokeGen cjv q = .ok (.withSource q (r q) (.strAnswer
        (l (chainPrompt (.jsonSel ext.format_instructions) chain1_template q (r q))))) ∧
    invokeGen csv q = .ok (.withSource q (r q) (.strAnswer
        (l (chainPrompt .strSel chain1_template q (r q))))) := by
  intro h1 h2 h3 h4
  rw [build_gen_json] at h1 h3
  rw [build_gen_str] at h2 h4
  obtain rfl := Except.ok.inj h1
  obtain rfl := Except.ok.inj h2
  obtain rfl := Except.ok.inj h3
  obtain rfl := Except.ok.inj h4
  exact ⟨rfl, rfl, rfl, rfl⟩

/-- C3 witness: the verbose JSON-mode chain surfaces the raw model text as
its answer. -/
theorem c3_amended_witness :
    invokeGen ⟨retr0, llmEcho, .jsonSel "FORMAT_INSTRUCTIONS", true⟩ "Q" =
      .ok (.withSource "Q" "CTX" (.strAnswer (llmEcho (chainPrompt
        (.jsonSel "FORMAT_INSTRUCTIONS") chain1_template "Q" "CTX")))) := by
  have h := c3_amended_parser_application ext0 retr0 llmEcho 0 "Q"
    ⟨retr0, llmEcho, .jsonSel "FORMAT_INSTRUCTIONS", false⟩
    ⟨retr0, llmEcho, .strSel, false⟩
    ⟨retr0, llmEcho, .jsonSel "FORMAT_INSTRUCTIONS", true⟩
    ⟨retr0, llmEcho, .strSel, true⟩ rfl rfl rfl rfl
  exact h.2.2.1

/-- C4 counterexample: with two databases sharing the `source_type`
`"debates"`, the `docs` dict comprehension keeps only the later database's
per-party breakdown, so the value at the first database's `source_type` is
not that database's `get_documents_for_each_party` result. -/
theorem c4_counterexample :
    generate_chain_with_balanced_retrieval ext0 [dbDup1, dbDup2] (some llmEcho) "str" 0 5 true "Deutsch" =
      .ok ⟨[dbDup1, dbDup2], llmEcho, .strSel, 5, true, "Deutsch"⟩ ∧
    invokeBalanced ⟨[dbDup1, dbDup2], llmEcho, .strSel, 5, true, "Deutsch"⟩ "Q" =
      .ok (.withContext "Q" "D1\n\nD2" [("debates", [("spd", ["y"])])]
        (.strAnswer (chainPrompt .strSel (balanced_template "Deutsch") "Q" "D1\n\nD2"))) ∧
    dbDup1.source_type = "debates" ∧
    dbDup1.get_documents_for_each_party "Q" 5 = [("spd", ["x"])] ∧
    ([("debates", [("spd", ["y"])])] :
        List (String × List (String × List String))).lookup dbDup1.source_type ≠
      some (dbDup1.get_documents_for_each_party "Q" 5) := by
  refine ⟨rfl, rfl, rfl, rfl, ?_⟩
  decide

/-- C4 (amended): with `return_context=True`, the `docs` field is the Python
dict built from `(source_type, get_documents_for_each_party)` pairs in list
order: its key set equals the set of the databases' `source_type` values;
when the `source_type` values are pairwise distinct, each database's
`source_type` maps to that database's own per-party breakdown (with
duplicates, the later database's result overwrites the earlier one's). -/
theorem c4_docs_mapping (ext : Ext) (l : String → String) (t : Int) (k : Nat)
    (lang q : String) (dbs : List Database) (c : BalancedChain) :
    generate_chain_with_balanced_retrieval ext dbs (some l) "str" t k true lang = .ok c →
    (∃ a, invokeBalanced c q =
      .ok (.withContext q (joinedContext dbs q k) (collectDocs dbs q k) a)) ∧
    (∀ s, s ∈ (collectDocs dbs q k).map Prod.fst ↔
      s ∈ dbs.map Database.source_type) ∧
    ((dbs.map Database.source_type).Nodup → ∀ db ∈ dbs,
      (collectDocs dbs q k).lookup db.source_type =
        some (db.get_documents_for_each_party q k)) := by
  intro h
  rw [build_bal_str] at h
  obtain rfl := Except.ok.inj h
  refine ⟨⟨_, rfl⟩, ?_, ?_⟩
  · intro s
    unfold collectDocs
    rw [mem_keys_pyDict, List.map_map]
    exact Iff.rfl
  · intro hnd db hdb
    unfold collectDocs
    rw [pyDict_of_nodup _ (by rw [List.map_map]; exact hnd)]
    exact lookup_collect (fun d => d.get_documents_for_each_party q k)
      dbs hnd db hdb

/-- C4 witness: with two distinct `source_type` values, each database's key
maps to its own documents. -/
theorem c4_witness :
    (collectDocs [dbDup1, dbB] "Q" 5).lookup dbDup1.source_type =
      some (dbDup1.get_documents_for_each_party "Q" 5) := by
  have h := c4_docs_mapping ext0 llmEcho 0 5 "Deutsch" "Q" [dbDup1, dbB]
    ⟨[dbDup1, dbB], llmEcho, .strSel, 5, true, "Deutsch"⟩ rfl
  exact h.2.2 (by decide) dbDup1 (by simp)

/-- C5: the single-retriever chain built with `verbose=True` returns a
mapping whose `question` key is the input question unchanged and whose
`context` key is exactly the retriever's output for that question (for
either parser mode that builds successfully). -/
theorem c5_verbose_question_context (ext : Ext) (r : String → String)
    (llm : Option (String → String)) (op : String) (t : Int) (q : String)
    (c : GenChain) :
    generate_chain ext r llm op true t = .ok c →
    ∃ a, invokeGen c q = .ok (.withSource q (r q) a) := by
  intro h
  by_cases h1 : op = "json"
  · subst h1
    rw [build_gen_json] at h
    obtain rfl := Except.ok.inj h
    exact ⟨_, rfl⟩
  · by_cases h2 : op = "str"
    · subst h2
      rw [build_gen_str] at h
      obtain rfl := Except.ok.inj h
      exact ⟨_, rfl⟩
    · exfalso
      simp [generate_chain, h1, h2] at h

/-- C5 witness. -/
theorem c5_witness :
    ∃ a, invokeGen ⟨retr0, llmEcho, .strSel, true⟩ "Q" =
      .ok (.withSource "Q" (retr0 "Q") a) :=
  c5_verbose_question_context ext0 retr0 (some llmEcho) "str" 0 "Q"
    ⟨retr0, llmEcho, .strSel, true⟩ rfl

/-- C6: the single-retriever chain with `verbose=False` and
`output_parser="str"` returns exactly the model's raw text for the fixed
prompt template filled with the question and the retriever's returned
context — no extra wrapping. -/
theorem c6_plain_str_returns_model_text (ext : Ext) (r l : String → String)
    (t : Int) (q : String) (c : GenChain) :
    generate_chain ext r (some l) "str" false t = .ok c →
    invokeGen c q = .ok (.plain (.strAnswer (l (formatTemplate chain1_template
      [("question", q), ("context", r q)])))) := by
  intro h
  rw [build_gen_str] at h
  obtain rfl := Except.ok.inj h
  rfl

/-- C6 witness. -/
theorem c6_witness :
    invokeGen ⟨retr0, llmEcho, .strSel, false⟩ "Q" =
      .ok (.plain (.strAnswer (llmEcho (formatTemplate chain1_template
        [("question", "Q"), ("context", retr0 "Q")])))) :=
  c6_plain_str_returns_model_text ext0 retr0 llmEcho 0 "Q"
    ⟨retr0, llmEcho, .strSel, false⟩ rfl

/-- C7: in `"json"` mode, when the model emits a valid six-field payload,
both chains' parsed answer exposes all six party keys with the given text
values unchanged (the payload values contain no quote character, so they
survive JSON rendering verbatim). -/
theorem c7_structured_payload_roundtrip (ext : Ext) (r : String → String)
    (t : Int) (q lang : String) (k : Nat) (dbs : List Database)
    (ps : PartySummaries) (c : GenChain) (b : BalancedChain) :
    quoteFreePS ps = true →
    generate_chain ext r (some (fun _ => renderPartySummaries ps)) "json" false t = .ok c →
    generate_chain_with_balanced_retrieval ext dbs
      (some (fun _ => renderPartySummaries ps)) "json" t k false lang = .ok b →
    invokeGen c q = .ok (.plain (.jsonAnswer (psFields ps))) ∧
    invokeBalanced b q = .ok (.basic q (.jsonAnswer (psFields ps))) ∧
    (psFields ps).lookup "cdu" = some ps.cdu ∧
    (psFields ps).lookup "spd" = some ps.spd ∧
    (psFields ps).lookup "gruene" = some ps.gruene ∧
    (psFields ps).lookup "linke" = some ps.linke ∧
    (psFields ps).lookup "fdp" = some ps.fdp ∧
    (psFields ps).lookup "afd" = some ps.afd := by
  intro hq h1 h2
  rw [build_gen_json] at h1
  rw [build_bal_json] at h2
  obtain rfl := Except.ok.inj h1
  obtain rfl := Except.ok.inj h2
  have hp := parse_render_ps ps hq
  refine ⟨?_, ?_, rfl, rfl, rfl, rfl, rfl, rfl⟩
  · show ((match parseFlatJson (renderPartySummaries ps) with
      | some d => (Except.ok (Answer.jsonAnswer (pyDict d)) : Except String Answer)
      | none => .error "OutputParserException").map GenResult.plain) = _
    rw [hp]
    rfl
  · show ((match parseFlatJson (renderPartySummaries ps) with
      | some d => (Except.ok (Answer.jsonAnswer (pyDict d)) : Except String Answer)
      | none => .error "OutputParserException").map (fun a => BalResult.basic q a)) = _
    rw [hp]
    rfl

/-- C7 witness: a concrete six-field payload parses back to its six values. -/
theorem c7_witness :
    invokeGen ⟨retr0, fun _ => renderPartySummaries ps0,
        .jsonSel "FORMAT_INSTRUCTIONS", false⟩ "Q" =
      .ok (.plain (.jsonAnswer (psFields ps0))) :=
  (c7_structured_payload_roundtrip ext0 retr0 0 "Q" "Deutsch" 5 [dbA] ps0
    ⟨retr0, fun _ => renderPartySummaries ps0, .jsonSel "FORMAT_INSTRUCTIONS", false⟩
    ⟨[dbA], fun _ => renderPartySummaries ps0, .jsonSel "FORMAT_INSTRUCTIONS",
      5, false, "Deutsch"⟩
    (by decide) rfl rfl).1

/-- C8: invoking the same built pipeline twice with the same question yields
identical output; the chain object after an invocation is unchanged, so no
state accumulates across calls (both builders, any configuration). -/
theorem c8_idempotent_invocation (c : GenChain) (q : String)
    (b : BalancedChain) (q2 : String) :
    (invokeGenS (invokeGenS c q).2 q).1 = (invokeGenS c q).1 ∧
    (invokeBalancedS (invokeBalancedS b q2).2 q2).1 = (invokeBalancedS b q2).1 :=
  ⟨rfl, rfl⟩

/-- C9: when the caller supplies a (non-`None`) model, the `temperature`
argument has no effect: both builders produce the same pipeline for any two
temperatures, and the pipelines produce identical output for every input
(`temperature` only configures the default model built when `llm` is
`None`). -/
theorem c9_temperature_unused_with_supplied_llm (ext : Ext)
    (r l : String → String) (op : String) (v : Bool) (t1 t2 : Int)
    (dbs : List Database) (k : Nat) (rc : Bool) (lang q : String) :
    generate_chain ext r (some l) op v t1 = generate_chain ext r (some l) op v t2 ∧
    (generate_chain ext r (some l) op v t1).map (fun c => invokeGen c q) =
      (generate_chain ext r (some l) op v t2).map (fun c => invokeGen c q) ∧
    generate_chain_with_balanced_retrieval ext dbs (some l) op t1 k rc lang =
      generate_chain_with_balanced_retrieval ext dbs (some l) op t2 k rc lang ∧
    (generate_chain_with_balanced_retrieval ext dbs (some l) op t1 k rc lang).map
        (fun c => invokeBalanced c q) =
      (generate_chain_with_balanced_retrieval ext dbs (some l) op t2 k rc lang).map
        (fun c => invokeBalanced c q) :=
  ⟨rfl, rfl, rfl, rfl⟩

/-- C10: an empty database list is never rejected: building succeeds for both
parser modes, and invoking passes the empty string as the joined context to
the prompt and, with `return_context=True`, an empty `docs` mapping. -/
theorem c10_empty_database_list (ext : Ext) (llm : Option (String → String))
    (t : Int) (k : Nat) (lang q : String) (rc : Bool) :
    (∃ c, generate_chain_with_balanced_retrieval ext [] llm "json" t k rc lang = .ok c) ∧
    (∃ c, generate_chain_with_balanced_retrieval ext [] llm "str" t k rc lang = .ok c) ∧
    (∀ l c, generate_chain_with_balanced_retrieval ext [] (some l) "str" t k true lang = .ok c →
      invokeBalanced c q = .ok (.withContext q "" [] (.strAnswer
        (l (chainPrompt .strSel (balanced_template lang) q ""))))) := by
  refine ⟨⟨_, rfl⟩, ⟨_, rfl⟩, ?_⟩
  intro l c h
  rw [build_bal_str] at h
  obtain rfl := Except.ok.inj h
  rfl

/-- C10 witness. -/
theorem c10_witness :
    invokeBalanced ⟨[], llmEcho, .strSel, 5, true, "Deutsch"⟩ "Q" =
      .ok (.withContext "Q" "" [] (.strAnswer
        (chainPrompt .strSel (balanced_template "Deutsch") "Q" ""))) :=
  (c10_empty_database_list ext0 (some llmEcho) 0 5 "Deutsch" "Q" true).2.2
    llmEcho ⟨[], llmEcho, .strSel, 5, true, "Deutsch"⟩ rfl

end Generation
